import Mathlib

/-!
# Mouthful Foods admin e-mail backend (`server.js`)

A shallow embedding of the Express service: the origin allow-list used by the
CORS middleware, the start-up choice of mail transport, the three e-mail
templates, the three `POST` handlers and the health check, followed by the
properties established about them.

Modelling conventions.

* Values read from the environment or from a JSON request body are either
  absent (`undefined`, here `none`) or a string (`some s`); `isActive` is absent
  or a boolean.  `req.body` is the object produced by `express.json()`.
* The mail transport and the identity provider are external collaborators.  A
  handler is a function that receives their behaviour (`Collaborators`) and
  returns the HTTP response together with the trace of the calls it made, in
  order.  A rejected promise or thrown error is `Except.error` carrying the
  `message` of the error.
-/

namespace MouthfulEmail

/-! ## JavaScript values of type "string or undefined" -/

/-- JavaScript truthiness of a value that is `undefined` or a string: only a
non-empty string is truthy. -/
def truthy : Option String → Bool
  | none => false
  | some s => s != ""

/-- The string a template literal substitutes for `${v}` when `v` is
`undefined` or a string. -/
def templateString : Option String → String
  | none => "undefined"
  | some s => s

/-- The string `haystack` contains `needle` as a contiguous run of characters. -/
def containsStr (needle haystack : String) : Prop :=
  needle.data <:+: haystack.data

instance (needle haystack : String) : Decidable (containsStr needle haystack) :=
  inferInstanceAs (Decidable (needle.data <:+: haystack.data))

/-- The method `Array.prototype.indexOf`: the position of the first element strictly equal
to `x`, or `-1`. -/
def indexOf {α : Type} [DecidableEq α] : List α → α → Int
  | [], _ => -1
  | y :: ys, x =>
    if y = x then 0
    else
      let i := indexOf ys x
      if i = -1 then -1 else i + 1

/-! ## Configuration -/

/-- The variables of `process.env` the service reads. -/
structure Env where
  EMAIL_USER : Option String
  EMAIL_PASS : Option String
  FRONTEND_PROD_URL : Option String
deriving DecidableEq, Repr

/-! ## Access control filter -/

/-- The array `allowedOrigins`: the two development origins and `FRONTEND_PROD_URL`, with
falsy entries removed by `.filter(Boolean)`. -/
def allowedOrigins (env : Env) : List (Option String) :=
  [some "http://localhost:3000", some "http://localhost:3001", env.FRONTEND_PROD_URL].filter truthy

/-- What the `origin` function hands to its callback: `callback(null, true)` or
`callback(new Error(message))`. -/
inductive CorsDecision where
  | allow
  | reject (message : String)
deriving DecidableEq, Repr

/-- The `origin` function given to `cors(...)`; `origin` is the request's
`Origin` header, `none` when the header is absent. -/
def corsOrigin (env : Env) (origin : Option String) : CorsDecision :=
  if !truthy origin then .allow
  else if indexOf (allowedOrigins env) origin ≠ -1 then .allow
  else .reject "Not allowed by CORS"

/-! ## Transport provisioner -/

/-- The argument of `nodemailer.createTransport`. -/
inductive TransportConfig where
  | service (service : String) (user pass : Option String)
  | smtp (host : String) (port : Nat) (secure : Bool) (user pass : String)
deriving DecidableEq, Repr

/-- The account returned by `nodemailer.createTestAccount()`. -/
structure TestAccount where
  user : String
  pass : String
deriving DecidableEq, Repr

/-- Calls `setupTransporter` makes on the mail library. -/
inductive SetupEvent where
  | createTestAccount
  | createTransport (config : TransportConfig)
  | verify
deriving DecidableEq, Repr

/-- Outcome of `setupTransporter`: the value left in the global `transporter`
(`none` while it is still `undefined`), the calls made, and the rejection
message when the returned promise rejects. -/
structure SetupResult where
  transporter : Option TransportConfig
  calls : List SetupEvent
  rejected : Option String
deriving DecidableEq, Repr

/-- The condition of the `if` in `setupTransporter`. -/
def useRealCredentials (env : Env) : Bool :=
  truthy env.EMAIL_USER && truthy env.EMAIL_PASS &&
    env.EMAIL_USER != some "your-email@gmail.com"

/-- The function `setupTransporter`; `createTestAccount` is the outcome of
`await nodemailer.createTestAccount()` should it be requested. -/
def setupTransporter (env : Env) (createTestAccount : Except String TestAccount) : SetupResult :=
  if useRealCredentials env then
    let config := TransportConfig.service "gmail" env.EMAIL_USER env.EMAIL_PASS
    { transporter := some config
      calls := [.createTransport config, .verify]
      rejected := none }
  else
    match createTestAccount with
    | .error e =>
      { transporter := none
        calls := [.createTestAccount]
        rejected := some e }
    | .ok testAccount =>
      let config := TransportConfig.smtp "smtp.ethereal.email" 587 false testAccount.user testAccount.pass
      { transporter := some config
        calls := [.createTestAccount, .createTransport config]
        rejected := none }

/-- The transports `setupTransporter` created. -/
def createdTransports (r : SetupResult) : List TransportConfig :=
  r.calls.filterMap fun
    | .createTransport config => some config
    | _ => none

/-! ## Requests, messages and collaborators -/

/-- The `vendor` object of a request body. -/
structure Vendor where
  name : Option String
  email : Option String
  businessName : Option String
deriving DecidableEq, Repr

/-- The fields the handlers destructure from `req.body`. -/
structure Body where
  vendor : Option Vendor
  reason : Option String
  isActive : Option Bool
  userId : Option String
deriving DecidableEq, Repr

/-- The `mailOptions` object handed to `sendMail`; `from_` and `to_` are its
`from` and `to` properties. -/
structure MailOptions where
  from_ : String
  to_ : Option String
  subject : String
  html : String
deriving DecidableEq, Repr

/-- The `info` object `sendMail` resolves with. -/
structure SendInfo where
  messageId : String
deriving DecidableEq, Repr

/-- The value the two send functions return. -/
structure SendResult where
  success : Bool
  messageId : String
deriving DecidableEq, Repr

/-- A provisioned transport: the outcome of `sendMail` on each message. -/
abbrev Transport := MailOptions → Except String SendInfo

/-- What a handler depends on besides the request: the global `transporter`
(`none` while `undefined`), `admin.apps.length`, and the outcome of
`admin.auth().deleteUser`. -/
structure Collaborators where
  transporter : Option Transport
  adminApps : Nat
  deleteUser : Option String → Except String Unit

/-- Observable calls of a handler, in order. -/
inductive Event where
  | sendMail (mailOptions : MailOptions)
  | deleteUser (userId : Option String)
  | consoleLog (text : String)
  | consoleError (label : String) (errorMessage : String)
deriving DecidableEq, Repr

/-- The messages passed to `sendMail` in a trace. -/
def sendMailCalls (trace : List Event) : List MailOptions :=
  trace.filterMap fun
    | .sendMail mailOptions => some mailOptions
    | _ => none

/-- The identifiers passed to `deleteUser` in a trace. -/
def deleteUserCalls (trace : List Event) : List (Option String) :=
  trace.filterMap fun
    | .deleteUser userId => some userId
    | _ => none

/-- A JSON response body. -/
inductive ResponseBody where
  | failure (error : String)
  | sent (message : String) (data : SendResult)
  | done (message : String)
  | health (status : String) (emailConfigured : Bool)
deriving DecidableEq, Repr

/-- An HTTP response: status code and JSON body. -/
structure Response where
  status : Nat
  body : ResponseBody
deriving DecidableEq, Repr

/-- The call `res.status(code).json(body)`. -/
def Response.withStatus (code : Nat) (body : ResponseBody) : Response := ⟨code, body⟩

/-- The call `res.json(body)`: the status stays at its default, 200. -/
def Response.json (body : ResponseBody) : Response := ⟨200, body⟩

/-- Message of the `TypeError` raised by evaluating `transporter.sendMail`
while `transporter` is `undefined`. -/
def undefinedTransporterMessage : String :=
  "Cannot read properties of undefined (reading \x27sendMail\x27)"

/-- The expression `await transporter.sendMail(mailOptions)`: a `TypeError`
without any call while `transporter` is `undefined`, one call otherwise. -/
def awaitSendMail (transporter : Option Transport) (mailOptions : MailOptions) :
    Except String SendInfo × List Event :=
  match transporter with
  | none => (.error undefinedTransporterMessage, [])
  | some t => (t mailOptions, [.sendMail mailOptions])

/-! ## Template renderer and notification sender -/

/-- The `from` header both templates use. -/
def fromHeader (env : Env) : String :=
  "\"Mouthful Foods\" <" ++ templateString env.EMAIL_USER ++ ">"

/-- The `html` template of the approval e-mail. -/
def approvalHtml (vendor : Vendor) : String :=
  "\n" ++
  "      <div style=\"font-family: Arial, sans-serif; max-width: 600px; margin: 0 auto; padding: 20px;\">\n" ++
  "        <h2 style=\"color: #4CAF50;\">Hello " ++
  templateString vendor.name ++
  "! 🎉</h2>\n" ++
  "        <p style=\"font-size: 16px;\">\n" ++
  "          Congratulations! Your vendor account for <strong>" ++
  templateString vendor.businessName ++
  "</strong> has been approved.\n" ++
  "        </p>\n" ++
  "        <p style=\"font-size: 16px;\">\n" ++
  "          Your account is now <strong style=\"color: #4CAF50;\">ACTIVE</strong>.\n" ++
  "        </p>\n" ++
  "        <div style=\"margin: 30px 0; text-align: center;\">\n" ++
  "          <a href=\"" ++
  "https://dashboard.mouthfulfoods.com/" ++
  "\" \n" ++
  "             style=\"background-color: #4CAF50; color: white; padding: 12px 30px; text-decoration: none; border-radius: 5px; display: inline-block; font-weight: bold;\">\n" ++
  "            Access Dashboard\n" ++
  "          </a>\n" ++
  "        </div>\n" ++
  "        <p style=\"font-size: 14px;\">You can now:</p>\n" ++
  "        <ul style=\"font-size: 14px;\">\n" ++
  "          <li>Manage your products</li>\n" ++
  "          <li>View orders</li>\n" ++
  "          <li>Track payments</li>\n" ++
  "          <li>Update business information</li>\n" ++
  "        </ul>\n" ++
  "        <p style=\"font-size: 14px; color: #666; margin-top: 30px;\">\n" ++
  "          Best regards,<br>\n" ++
  "          <strong>Mouthful Foods Admin Team</strong>\n" ++
  "        </p>\n" ++
  "      </div>\n" ++
  "    "

/-- The `mailOptions` built by `sendVendorApprovalEmail`. -/
def approvalMailOptions (env : Env) (vendor : Vendor) : MailOptions :=
  { from_ := fromHeader env
    to_ := vendor.email
    subject := "Your Vendor Account is Approved 🎉"
    html := approvalHtml vendor }

/-- The function `sendVendorApprovalEmail(vendor)`. -/
def sendVendorApprovalEmail (env : Env) (transporter : Option Transport) (vendor : Vendor) :
    Except String SendResult × List Event :=
  let mailOptions := approvalMailOptions env vendor
  match awaitSendMail transporter mailOptions with
  | (.error e, trace) => (.error e, trace)
  | (.ok info, trace) => (.ok { success := true, messageId := info.messageId }, trace)

/-- The `html` template used when `isActive` is truthy. -/
def suspendedHtml (vendor : Vendor) (reason : Option String) : String :=
  "\n" ++
  "        <div style=\"font-family: Arial, sans-serif; max-width: 600px; margin: 0 auto; padding: 20px;\">\n" ++
  "          <h2 style=\"color: #f44336;\">Account Suspended</h2>\n" ++
  "          <p>Hello " ++
  templateString vendor.name ++
  ",</p>\n" ++
  "          <p>Your vendor account for <strong>" ++
  templateString vendor.businessName ++
  "</strong> has been suspended.</p>\n" ++
  "          <div style=\"background-color: #ffebee; border-left: 4px solid #f44336; padding: 15px; margin: 20px 0;\">\n" ++
  "            <strong>Reason:</strong> " ++
  templateString reason ++
  "\n" ++
  "          </div>\n" ++
  "          <p>Please contact us for more details or to resolve this issue.</p>\n" ++
  "          <div style=\"margin: 20px 0;\">\n" ++
  "            <p><strong>Contact Support:</strong></p>\n" ++
  "            <p>📧 Email: <a href=\"mailto:support@mouthfulfoods.com\">support@mouthfulfoods.com</a></p>\n" ++
  "            <p>📱 Or contact us through the Mouthful Foods app</p>\n" ++
  "          </div>\n" ++
  "          <p style=\"font-size: 14px; color: #666; margin-top: 30px;\">\n" ++
  "            Best regards,<br>\n" ++
  "            <strong>Mouthful Foods Admin Team</strong>\n" ++
  "          </p>\n" ++
  "        </div>\n" ++
  "      "

/-- The `html` template used when `isActive` is falsy. -/
def rejectedHtml (vendor : Vendor) (reason : Option String) : String :=
  "\n" ++
  "        <div style=\"font-family: Arial, sans-serif; max-width: 600px; margin: 0 auto; padding: 20px;\">\n" ++
  "          <h2 style=\"color: #f44336;\">Application Rejected</h2>\n" ++
  "          <p>Hello " ++
  templateString vendor.name ++
  ",</p>\n" ++
  "          <p>Your vendor application for <strong>" ++
  templateString vendor.businessName ++
  "</strong> has been rejected.</p>\n" ++
  "          <div style=\"background-color: #fff3cd; border-left: 4px solid #ffc107; padding: 15px; margin: 20px 0;\">\n" ++
  "            <strong>Reason:</strong> " ++
  templateString reason ++
  "\n" ++
  "          </div>\n" ++
  "          <p>You are welcome to re-register with complete information through the Mouthful Foods mobile app.</p>\n" ++
  "          <p style=\"font-size: 14px; color: #666; margin-top: 30px;\">\n" ++
  "            Best regards,<br>\n" ++
  "            <strong>Mouthful Foods Admin Team</strong>\n" ++
  "          </p>\n" ++
  "        </div>\n" ++
  "      "

/-- The `mailOptions` built by `sendVendorSuspensionEmail` once the default of
`isActive` has been applied. -/
def suspensionMailOptions (env : Env) (vendor : Vendor) (reason : Option String)
    (isActive : Bool) : MailOptions :=
  { from_ := fromHeader env
    to_ := vendor.email
    subject :=
      if isActive then "Account Suspended - Mouthful Foods"
      else "Application Rejected - Mouthful Foods"
    html := if isActive then suspendedHtml vendor reason else rejectedHtml vendor reason }

/-- The function `sendVendorSuspensionEmail(vendor, reason, isActive = true)`: an absent
`isActive` takes the default `true`. -/
def sendVendorSuspensionEmail (env : Env) (transporter : Option Transport) (vendor : Vendor)
    (reason : Option String) (isActive : Option Bool) : Except String SendResult × List Event :=
  let mailOptions := suspensionMailOptions env vendor reason (isActive.getD true)
  match awaitSendMail transporter mailOptions with
  | (.error e, trace) => (.error e, trace)
  | (.ok info, trace) => (.ok { success := true, messageId := info.messageId }, trace)

/-! ## Request handlers -/

/-- The validation `!vendor || !vendor.email || !vendor.name`, returning the
vendor when it passes. -/
def validVendor (body : Body) : Option Vendor :=
  match body.vendor with
  | none => none
  | some vendor => if !truthy vendor.email || !truthy vendor.name then none else some vendor

/-- The 400 response to an invalid vendor. -/
def missingVendorResponse : Response :=
  Response.withStatus 400 (.failure "Missing required vendor information")

/-- The 400 response to a falsy reason. -/
def reasonRequiredResponse : Response :=
  Response.withStatus 400 (.failure "Reason is required")

/-- The `catch` block shared by the handlers: log, then answer 500 with the
error message. -/
def caught (label message : String) (trace : List Event) : Response × List Event :=
  (Response.withStatus 500 (.failure message), trace ++ [.consoleError label message])

/-- The handler of `POST /api/send-approval-email`. -/
def sendApprovalEmail (env : Env) (c : Collaborators) (body : Body) : Response × List Event :=
  match validVendor body with
  | none => (missingVendorResponse, [])
  | some vendor =>
    match sendVendorApprovalEmail env c.transporter vendor with
    | (.error message, trace) => caught "Error sending approval email:" message trace
    | (.ok result, trace) =>
      (Response.json (.sent "Approval email sent successfully" result), trace)

/-- The handler of `POST /api/send-suspension-email`. -/
def sendSuspensionEmail (env : Env) (c : Collaborators) (body : Body) : Response × List Event :=
  match validVendor body with
  | none => (missingVendorResponse, [])
  | some vendor =>
    if !truthy body.reason then (reasonRequiredResponse, [])
    else
      match sendVendorSuspensionEmail env c.transporter vendor body.reason body.isActive with
      | (.error message, trace) => caught "Error sending email:" message trace
      | (.ok result, trace) => (Response.json (.sent "Email sent successfully" result), trace)

/-- The best-effort deletion step of the rejection handler:
`if (userId && admin.apps.length > 0) { try { deleteUser } catch { log } }`. -/
def deleteAuthUser (c : Collaborators) (userId : Option String) : List Event :=
  if truthy userId && decide (c.adminApps > 0) then
    match c.deleteUser userId with
    | .ok _ =>
      [.deleteUser userId, .consoleLog ("✅ Deleted user from Firebase Auth: " ++ templateString userId)]
    | .error message =>
      [.deleteUser userId, .consoleError "⚠️ Error deleting Firebase Auth user:" message]
  else []

/-- The handler of `POST /api/reject-and-delete-vendor`. -/
def rejectAndDeleteVendor (env : Env) (c : Collaborators) (body : Body) : Response × List Event :=
  match validVendor body with
  | none => (missingVendorResponse, [])
  | some vendor =>
    if !truthy body.reason then (reasonRequiredResponse, [])
    else
      match sendVendorSuspensionEmail env c.transporter vendor body.reason (some false) with
      | (.error message, trace) => caught "Error rejecting vendor:" message trace
      | (.ok _, trace) =>
        (Response.json (.done "Vendor rejected, email sent, and user deleted from authentication"),
          trace ++ deleteAuthUser c body.userId)

/-- The handler of `GET /api/health`. -/
def health (env : Env) : Response :=
  Response.json (.health "ok" (truthy env.EMAIL_USER && truthy env.EMAIL_PASS))

/-- The three endpoints that send an e-mail. -/
inductive SendEndpoint where
  | approval
  | suspension
  | rejectAndDelete
deriving DecidableEq, Repr

/-- The handler registered for a send endpoint. -/
def handle (env : Env) (c : Collaborators) : SendEndpoint → Body → Response × List Event
  | .approval => sendApprovalEmail env c
  | .suspension => sendSuspensionEmail env c
  | .rejectAndDelete => rejectAndDeleteVendor env c

/-- The condition the specification gives for configured mode: both mail
credentials are present and non-empty, and the username is not the
placeholder. -/
def specConfiguredMode (env : Env) : Prop :=
  ∃ u p, env.EMAIL_USER = some u ∧ u ≠ "" ∧ env.EMAIL_PASS = some p ∧ p ≠ "" ∧
    u ≠ "your-email@gmail.com"

/-- The message a send endpoint renders for a vendor that passed validation. -/
def mailOptionsFor (env : Env) (vendor : Vendor) (body : Body) : SendEndpoint → MailOptions
  | .approval => approvalMailOptions env vendor
  | .suspension => suspensionMailOptions env vendor body.reason (body.isActive.getD true)
  | .rejectAndDelete => suspensionMailOptions env vendor body.reason false

/-! ## Sample collaborators -/

/-- A transport that accepts every message with a fixed identifier. -/
def acceptingTransport : Transport := fun _ => .ok { messageId := "<id-1@mouthfulfoods.com>" }

/-- Collaborators with a working transport and identity provider. -/
def workingCollaborators : Collaborators :=
  { transporter := some acceptingTransport
    adminApps := 1
    deleteUser := fun _ => .ok () }

/-- Collaborators whose transport accepts the message, with an identity
provider that is configured but whose `deleteUser` raises. -/
def failingDeletionCollaborators : Collaborators :=
  { transporter := some acceptingTransport
    adminApps := 1
    deleteUser := fun _ => .error "There is no user record corresponding to the provided identifier." }

/-- Collaborators whose transport rejects every message. -/
def rejectingCollaborators : Collaborators :=
  { transporter := some fun _ => .error "Invalid login: 535-5.7.8 Username and Password not accepted"
    adminApps := 1
    deleteUser := fun _ => .ok () }

/-! ## Auxiliary facts -/

theorem truthy_eq_true_iff (o : Option String) :
    truthy o = true ↔ ∃ s, o = some s ∧ s ≠ "" := by
  cases o with
  | none => simp [truthy]
  | some s => simp [truthy]

theorem truthy_eq_false_iff (o : Option String) :
    truthy o = false ↔ o = none ∨ o = some "" := by
  cases o with
  | none => simp [truthy]
  | some s => simp [truthy]

theorem containsStr_self (s : String) : containsStr s s :=
  ⟨[], [], by simp⟩

theorem containsStr_append_left {x s t : String} (h : containsStr x s) :
    containsStr x (s ++ t) := by
  obtain ⟨a, b, hab⟩ := h
  exact ⟨a, b ++ t.data, by simp [← hab]⟩

theorem containsStr_append_right {x s t : String} (h : containsStr x s) :
    containsStr x (t ++ s) := by
  obtain ⟨a, b, hab⟩ := h
  exact ⟨t.data ++ a, b, by simp [← hab]⟩

theorem approvalHtml_contains_name (vendor : Vendor) :
    containsStr (templateString vendor.name) (approvalHtml vendor) := by
  unfold approvalHtml
  repeat (first
    | exact containsStr_append_right (containsStr_self _)
    | apply containsStr_append_left)

theorem approvalHtml_contains_businessName (vendor : Vendor) :
    containsStr (templateString vendor.businessName) (approvalHtml vendor) := by
  unfold approvalHtml
  repeat (first
    | exact containsStr_append_right (containsStr_self _)
    | apply containsStr_append_left)

theorem approvalHtml_contains_strong_businessName (vendor : Vendor) :
    containsStr ("<strong>" ++ templateString vendor.businessName ++ "</strong>")
      (approvalHtml vendor) := by
  refine ⟨("\n" ++
      "      <div style=\"font-family: Arial, sans-serif; max-width: 600px; margin: 0 auto; padding: 20px;\">\n" ++
      "        <h2 style=\"color: #4CAF50;\">Hello " ++
      templateString vendor.name ++
      "! 🎉</h2>\n" ++
      "        <p style=\"font-size: 16px;\">\n" ++
      "          Congratulations! Your vendor account for ").data,
    (" has been approved.\n" ++
      "        </p>\n" ++
      "        <p style=\"font-size: 16px;\">\n" ++
      "          Your account is now <strong style=\"color: #4CAF50;\">ACTIVE</strong>.\n" ++
      "        </p>\n" ++
      "        <div style=\"margin: 30px 0; text-align: center;\">\n" ++
      "          <a href=\"" ++
      "https://dashboard.mouthfulfoods.com/" ++
      "\" \n" ++
      "             style=\"background-color: #4CAF50; color: white; padding: 12px 30px; text-decoration: none; border-radius: 5px; display: inline-block; font-weight: bold;\">\n" ++
      "            Access Dashboard\n" ++
      "          </a>\n" ++
      "        </div>\n" ++
      "        <p style=\"font-size: 14px;\">You can now:</p>\n" ++
      "        <ul style=\"font-size: 14px;\">\n" ++
      "          <li>Manage your products</li>\n" ++
      "          <li>View orders</li>\n" ++
      "          <li>Track payments</li>\n" ++
      "          <li>Update business information</li>\n" ++
      "        </ul>\n" ++
      "        <p style=\"font-size: 14px; color: #666; margin-top: 30px;\">\n" ++
      "          Best regards,<br>\n" ++
      "          <strong>Mouthful Foods Admin Team</strong>\n" ++
      "        </p>\n" ++
      "      </div>\n" ++
      "    ").data, ?_⟩
  unfold approvalHtml
  simp only [String.data_append, List.append_assoc]
  rfl

theorem approvalHtml_contains_dashboard (vendor : Vendor) :
    containsStr "https://dashboard.mouthfulfoods.com/" (approvalHtml vendor) := by
  unfold approvalHtml
  repeat (first
    | exact containsStr_append_right (containsStr_self _)
    | apply containsStr_append_left)

theorem suspendedHtml_contains_reason (vendor : Vendor) (reason : Option String) :
    containsStr (templateString reason) (suspendedHtml vendor reason) := by
  unfold suspendedHtml
  repeat (first
    | exact containsStr_append_right (containsStr_self _)
    | apply containsStr_append_left)

theorem rejectedHtml_contains_reason (vendor : Vendor) (reason : Option String) :
    containsStr (templateString reason) (rejectedHtml vendor reason) := by
  unfold rejectedHtml
  repeat (first
    | exact containsStr_append_right (containsStr_self _)
    | apply containsStr_append_left)

theorem validVendor_eq_none (body : Body)
    (h : ∀ v, body.vendor = some v → v.email = none ∨ v.email = some "") :
    validVendor body = none := by
  unfold validVendor
  cases hb : body.vendor with
  | none => rfl
  | some v =>
    have hf := (truthy_eq_false_iff v.email).2 (h v hb)
    simp [hf]

theorem validVendor_eq_some (body : Body) (v : Vendor) (hv : body.vendor = some v)
    (he : truthy v.email = true) (hn : truthy v.name = true) : validVendor body = some v := by
  simp [validVendor, hv, he, hn]

theorem validVendor_some_iff (body : Body) (v : Vendor) :
    validVendor body = some v ↔
      body.vendor = some v ∧ truthy v.email = true ∧ truthy v.name = true := by
  constructor
  · intro h
    unfold validVendor at h
    cases hb : body.vendor with
    | none => simp [hb] at h
    | some w =>
      rw [hb] at h
      simp only [] at h
      split at h
      · cases h
      · rename_i hcond
        cases h
        simp only [Bool.or_eq_true, Bool.not_eq_true', not_or, Bool.not_eq_false] at hcond
        exact ⟨rfl, hcond.1, hcond.2⟩
  · rintro ⟨hv, he, hn⟩
    exact validVendor_eq_some body v hv he hn

/-! ## Validation failures (C1, C8) -/

/-- C1: on each of the three send endpoints, a request body whose
`vendor.email` is missing or empty (the vendor itself may be missing, the other
fields are arbitrary) is answered with status 400 and a `success:false` body,
and `sendMail` is not invoked. -/
theorem C1_missing_email_is_rejected (env : Env) (c : Collaborators) (ep : SendEndpoint)
    (body : Body) (h : ∀ v, body.vendor = some v → v.email = none ∨ v.email = some "") :
    (handle env c ep body).1 = ⟨400, .failure "Missing required vendor information"⟩ ∧
      sendMailCalls (handle env c ep body).2 = [] := by
  have hv := validVendor_eq_none body h
  cases ep <;>
    simp [handle, sendApprovalEmail, sendSuspensionEmail, rejectAndDeleteVendor, hv,
      missingVendorResponse, Response.withStatus, sendMailCalls]

theorem C1_missing_email_is_rejected_witness :
    (handle ⟨none, none, none⟩ workingCollaborators .rejectAndDelete
        ⟨some ⟨some "Ana", some "", some "Ana Kitchen"⟩, some "incomplete", none, some "u1"⟩).1
        = ⟨400, .failure "Missing required vendor information"⟩ ∧
      sendMailCalls (handle ⟨none, none, none⟩ workingCollaborators .rejectAndDelete
        ⟨some ⟨some "Ana", some "", some "Ana Kitchen"⟩, some "incomplete", none, some "u1"⟩).2
        = [] :=
  C1_missing_email_is_rejected ⟨none, none, none⟩ workingCollaborators .rejectAndDelete
    ⟨some ⟨some "Ana", some "", some "Ana Kitchen"⟩, some "incomplete", none, some "u1"⟩
    (by intro v hv; cases hv; exact Or.inr rfl)

/-- C8: on the suspension and the reject-and-delete endpoints, a request whose
vendor has a non-empty name and e-mail and whose reason is missing or empty is
answered with status 400 and exactly `{success:false, error:"Reason is
required"}`; neither `sendMail` nor `deleteUser` is invoked. -/
theorem C8_missing_reason_is_rejected (env : Env) (c : Collaborators) (ep : SendEndpoint)
    (body : Body) (v : Vendor) (hep : ep = .suspension ∨ ep = .rejectAndDelete)
    (hv : body.vendor = some v)
    (hn : ∃ n, v.name = some n ∧ n ≠ "") (he : ∃ e, v.email = some e ∧ e ≠ "")
    (hr : body.reason = none ∨ body.reason = some "") :
    (handle env c ep body).1 = ⟨400, .failure "Reason is required"⟩ ∧
      sendMailCalls (handle env c ep body).2 = [] ∧
      deleteUserCalls (handle env c ep body).2 = [] := by
  have hvalid := validVendor_eq_some body v hv ((truthy_eq_true_iff _).2 he)
    ((truthy_eq_true_iff _).2 hn)
  have hreason := (truthy_eq_false_iff _).2 hr
  rcases hep with rfl | rfl <;>
    simp [handle, sendSuspensionEmail, rejectAndDeleteVendor, hvalid, hreason,
      reasonRequiredResponse, Response.withStatus, sendMailCalls, deleteUserCalls]

theorem C8_missing_reason_is_rejected_witness :
    (handle ⟨none, none, none⟩ workingCollaborators .suspension
        ⟨some ⟨some "Ana", some "ana@x.com", some "Ana Kitchen"⟩, none, some true, none⟩).1
        = ⟨400, .failure "Reason is required"⟩ ∧
      sendMailCalls (handle ⟨none, none, none⟩ workingCollaborators .suspension
        ⟨some ⟨some "Ana", some "ana@x.com", some "Ana Kitchen"⟩, none, some true, none⟩).2
        = [] ∧
      deleteUserCalls (handle ⟨none, none, none⟩ workingCollaborators .suspension
        ⟨some ⟨some "Ana", some "ana@x.com", some "Ana Kitchen"⟩, none, some true, none⟩).2
        = [] :=
  C8_missing_reason_is_rejected ⟨none, none, none⟩ workingCollaborators .suspension
    ⟨some ⟨some "Ana", some "ana@x.com", some "Ana Kitchen"⟩, none, some true, none⟩
    ⟨some "Ana", some "ana@x.com", some "Ana Kitchen"⟩ (Or.inl rfl) rfl
    ⟨"Ana", rfl, by decide⟩ ⟨"ana@x.com", rfl, by decide⟩ (Or.inl rfl)

/-! ## Health check (C2) -/

/-- C2: with the placeholder username and a password set, `GET /api/health`
answers `emailConfigured:true` although `setupTransporter` does not take its
configured branch and the specification's condition for configured mode is
false: the health check omits the placeholder comparison. -/
theorem C2_health_ignores_placeholder :
    health ⟨some "your-email@gmail.com", some "app-password", none⟩
        = ⟨200, .health "ok" true⟩ ∧
      useRealCredentials ⟨some "your-email@gmail.com", some "app-password", none⟩ = false ∧
      ¬ specConfiguredMode ⟨some "your-email@gmail.com", some "app-password", none⟩ := by
  refine ⟨by decide, by decide, ?_⟩
  rintro ⟨u, p, hu, -, -, -, hne⟩
  exact hne (Option.some.inj hu).symm

/-! ## Sending (C3, C4, C7) -/

theorem sendVendorSuspensionEmail_ok (env : Env) (t : Transport) (vendor : Vendor)
    (reason : Option String) (isActive : Option Bool) (info : SendInfo)
    (h : t (suspensionMailOptions env vendor reason (isActive.getD true)) = .ok info) :
    sendVendorSuspensionEmail env (some t) vendor reason isActive =
      (.ok ⟨true, info.messageId⟩,
        [.sendMail (suspensionMailOptions env vendor reason (isActive.getD true))]) := by
  simp [sendVendorSuspensionEmail, awaitSendMail, h]

theorem sendVendorSuspensionEmail_error (env : Env) (transporter : Option Transport)
    (vendor : Vendor) (reason : Option String) (isActive : Option Bool) (m : String)
    (h : (awaitSendMail transporter
      (suspensionMailOptions env vendor reason (isActive.getD true))).1 = .error m) :
    sendVendorSuspensionEmail env transporter vendor reason isActive =
      (.error m,
        if transporter.isSome then
          [.sendMail (suspensionMailOptions env vendor reason (isActive.getD true))]
        else []) := by
  cases transporter with
  | none =>
    have hm : undefinedTransporterMessage = m := Except.error.inj h
    simp [sendVendorSuspensionEmail, awaitSendMail, hm]
  | some t =>
    simp only [awaitSendMail] at h
    simp [sendVendorSuspensionEmail, awaitSendMail, h]

theorem sendVendorApprovalEmail_ok (env : Env) (t : Transport) (vendor : Vendor)
    (info : SendInfo) (h : t (approvalMailOptions env vendor) = .ok info) :
    sendVendorApprovalEmail env (some t) vendor =
      (.ok ⟨true, info.messageId⟩, [.sendMail (approvalMailOptions env vendor)]) := by
  simp [sendVendorApprovalEmail, awaitSendMail, h]

theorem sendVendorApprovalEmail_error (env : Env) (transporter : Option Transport)
    (vendor : Vendor) (m : String)
    (h : (awaitSendMail transporter (approvalMailOptions env vendor)).1 = .error m) :
    sendVendorApprovalEmail env transporter vendor =
      (.error m,
        if transporter.isSome then [.sendMail (approvalMailOptions env vendor)] else []) := by
  cases transporter with
  | none =>
    have hm : undefinedTransporterMessage = m := Except.error.inj h
    simp [sendVendorApprovalEmail, awaitSendMail, hm]
  | some t =>
    simp only [awaitSendMail] at h
    simp [sendVendorApprovalEmail, awaitSendMail, h]

theorem sendVendorApprovalEmail_trace (env : Env) (t : Transport) (vendor : Vendor) :
    (sendVendorApprovalEmail env (some t) vendor).2 =
      [.sendMail (approvalMailOptions env vendor)] := by
  unfold sendVendorApprovalEmail
  simp only [awaitSendMail]
  cases t (approvalMailOptions env vendor) <;> rfl

theorem sendVendorSuspensionEmail_trace (env : Env) (t : Transport) (vendor : Vendor)
    (reason : Option String) (isActive : Option Bool) :
    (sendVendorSuspensionEmail env (some t) vendor reason isActive).2 =
      [.sendMail (suspensionMailOptions env vendor reason (isActive.getD true))] := by
  unfold sendVendorSuspensionEmail
  simp only [awaitSendMail]
  cases t (suspensionMailOptions env vendor reason (isActive.getD true)) <;> rfl

theorem sendMailCalls_append (a b : List Event) :
    sendMailCalls (a ++ b) = sendMailCalls a ++ sendMailCalls b := by
  simp [sendMailCalls]

theorem deleteUserCalls_append (a b : List Event) :
    deleteUserCalls (a ++ b) = deleteUserCalls a ++ deleteUserCalls b := by
  simp [deleteUserCalls]

theorem deleteUserCalls_deleteAuthUser (c : Collaborators) (userId : Option String) :
    deleteUserCalls (deleteAuthUser c userId) =
      if truthy userId && decide (c.adminApps > 0) then [userId] else [] := by
  unfold deleteAuthUser
  split
  · cases c.deleteUser userId <;> simp [deleteUserCalls]
  · simp [deleteUserCalls]

theorem sendMailCalls_deleteAuthUser (c : Collaborators) (userId : Option String) :
    sendMailCalls (deleteAuthUser c userId) = [] := by
  unfold deleteAuthUser
  split
  · cases c.deleteUser userId <;> simp [sendMailCalls]
  · simp [sendMailCalls]

/-- C3: a valid reject-and-delete request whose rejection e-mail is accepted
by the transport is answered with status 200 and `success:true`, whatever the
identity provider does: the response does not depend on `admin.apps.length` nor
on the outcome of `deleteUser`.  The e-mail is sent once; `deleteUser` is not
called when no app is configured, and is called once with the supplied
`userId` when one is. -/
theorem C3_deletion_never_changes_response (env : Env) (c : Collaborators) (body : Body)
    (v : Vendor) (t : Transport) (info : SendInfo)
    (hv : body.vendor = some v)
    (hn : ∃ n, v.name = some n ∧ n ≠ "") (he : ∃ e, v.email = some e ∧ e ≠ "")
    (hr : ∃ r, body.reason = some r ∧ r ≠ "")
    (ht : c.transporter = some t)
    (hsend : t (suspensionMailOptions env v body.reason false) = .ok info) :
    (rejectAndDeleteVendor env c body).1 =
        ⟨200, .done "Vendor rejected, email sent, and user deleted from authentication"⟩ ∧
      sendMailCalls (rejectAndDeleteVendor env c body).2 =
        [suspensionMailOptions env v body.reason false] ∧
      deleteUserCalls (rejectAndDeleteVendor env c body).2 =
        (if truthy body.userId && decide (c.adminApps > 0) then [body.userId] else []) := by
  have hvalid := validVendor_eq_some body v hv ((truthy_eq_true_iff _).2 he)
    ((truthy_eq_true_iff _).2 hn)
  have hreason := (truthy_eq_true_iff _).2 hr
  have hs := sendVendorSuspensionEmail_ok env t v body.reason (some false) info hsend
  simp only [Option.getD_some] at hs
  have hrun : rejectAndDeleteVendor env c body =
      (Response.json (.done "Vendor rejected, email sent, and user deleted from authentication"),
        [.sendMail (suspensionMailOptions env v body.reason false)] ++
          deleteAuthUser c body.userId) := by
    simp [rejectAndDeleteVendor, hvalid, hreason, ht, hs]
  rw [hrun]
  refine ⟨rfl, ?_, ?_⟩
  · show sendMailCalls (_ ++ _) = _
    rw [sendMailCalls_append, sendMailCalls_deleteAuthUser]
    rfl
  · show deleteUserCalls (_ ++ _) = _
    rw [deleteUserCalls_append, deleteUserCalls_deleteAuthUser]
    rfl

theorem C3_deletion_never_changes_response_witness :
    (rejectAndDeleteVendor ⟨none, none, none⟩ failingDeletionCollaborators
        ⟨some ⟨some "Ana", some "ana@x.com", some "Ana Kitchen"⟩, some "incomplete", none,
          some "u1"⟩).1 =
        ⟨200, .done "Vendor rejected, email sent, and user deleted from authentication"⟩ ∧
      deleteUserCalls (rejectAndDeleteVendor ⟨none, none, none⟩ failingDeletionCollaborators
        ⟨some ⟨some "Ana", some "ana@x.com", some "Ana Kitchen"⟩, some "incomplete", none,
          some "u1"⟩).2 = [some "u1"] :=
  have h := C3_deletion_never_changes_response ⟨none, none, none⟩ failingDeletionCollaborators
    ⟨some ⟨some "Ana", some "ana@x.com", some "Ana Kitchen"⟩, some "incomplete", none, some "u1"⟩
    ⟨some "Ana", some "ana@x.com", some "Ana Kitchen"⟩ acceptingTransport
    ⟨"<id-1@mouthfulfoods.com>"⟩ rfl ⟨"Ana", rfl, by decide⟩ ⟨"ana@x.com", rfl, by decide⟩
    ⟨"incomplete", rfl, by decide⟩ rfl rfl
  ⟨h.1, h.2.2⟩

/-- C4 (as stated) fails when no transport was provisioned: a valid approval
request is answered with status 500 and the message of the error raised by the
send attempt, yet `sendMail` was not called once: it was not called at all. -/
theorem C4_counterexample_no_transport :
    (awaitSendMail none (mailOptionsFor ⟨none, none, none⟩
        ⟨some "Ana", some "ana@x.com", some "Ana Kitchen"⟩
        ⟨some ⟨some "Ana", some "ana@x.com", some "Ana Kitchen"⟩, none, none, none⟩
        .approval)).1 = .error undefinedTransporterMessage ∧
      (handle ⟨none, none, none⟩ ⟨none, 0, fun _ => .ok ()⟩ .approval
        ⟨some ⟨some "Ana", some "ana@x.com", some "Ana Kitchen"⟩, none, none, none⟩).1 =
        ⟨500, .failure undefinedTransporterMessage⟩ ∧
      ¬ (sendMailCalls (handle ⟨none, none, none⟩ ⟨none, 0, fun _ => .ok ()⟩ .approval
        ⟨some ⟨some "Ana", some "ana@x.com", some "Ana Kitchen"⟩, none, none, none⟩).2).length
          = 1 := by
  refine ⟨rfl, ?_, ?_⟩
  · decide
  · decide

/-- C4 (amended): on each send endpoint, when a request passes validation and
the send attempt raises an error with message `m` (the transport rejects the
message, or no transport was provisioned), the response is status 500 with
body `{success:false, error:m}`; `sendMail` was called exactly once when a
transport was provisioned and not at all when none was (never retried); and
`deleteUser` is not called. -/
theorem C4_send_failure_is_500 (env : Env) (c : Collaborators) (ep : SendEndpoint)
    (body : Body) (v : Vendor) (m : String)
    (hv : body.vendor = some v)
    (hn : ∃ n, v.name = some n ∧ n ≠ "") (he : ∃ e, v.email = some e ∧ e ≠ "")
    (hr : ep ≠ .approval → ∃ r, body.reason = some r ∧ r ≠ "")
    (hfail : (awaitSendMail c.transporter (mailOptionsFor env v body ep)).1 = .error m) :
    (handle env c ep body).1 = ⟨500, .failure m⟩ ∧
      sendMailCalls (handle env c ep body).2 =
        (if c.transporter.isSome then [mailOptionsFor env v body ep] else []) ∧
      deleteUserCalls (handle env c ep body).2 = [] := by
  have hvalid := validVendor_eq_some body v hv ((truthy_eq_true_iff _).2 he)
    ((truthy_eq_true_iff _).2 hn)
  cases ep with
  | approval =>
    have hs := sendVendorApprovalEmail_error env c.transporter v m hfail
    have hrun : handle env c .approval body =
        caught "Error sending approval email:" m
          (if c.transporter.isSome then [.sendMail (approvalMailOptions env v)] else []) := by
      simp [handle, sendApprovalEmail, hvalid, hs]
    rw [hrun]
    cases c.transporter <;> simp [caught, Response.withStatus, sendMailCalls, deleteUserCalls,
      mailOptionsFor]
  | suspension =>
    have hreason := (truthy_eq_true_iff _).2 (hr (by simp))
    have hs := sendVendorSuspensionEmail_error env c.transporter v body.reason body.isActive m
      hfail
    have hrun : handle env c .suspension body =
        caught "Error sending email:" m
          (if c.transporter.isSome then
            [.sendMail (suspensionMailOptions env v body.reason (body.isActive.getD true))]
          else []) := by
      simp [handle, sendSuspensionEmail, hvalid, hreason, hs]
    rw [hrun]
    cases c.transporter <;> simp [caught, Response.withStatus, sendMailCalls, deleteUserCalls,
      mailOptionsFor]
  | rejectAndDelete =>
    have hreason := (truthy_eq_true_iff _).2 (hr (by simp))
    have hs := sendVendorSuspensionEmail_error env c.transporter v body.reason (some false) m
      hfail
    simp only [Option.getD_some] at hs
    have hrun : handle env c .rejectAndDelete body =
        caught "Error rejecting vendor:" m
          (if c.transporter.isSome then
            [.sendMail (suspensionMailOptions env v body.reason false)]
          else []) := by
      simp [handle, rejectAndDeleteVendor, hvalid, hreason, hs]
    rw [hrun]
    cases c.transporter <;> simp [caught, Response.withStatus, sendMailCalls, deleteUserCalls,
      mailOptionsFor]

theorem C4_send_failure_is_500_witness :
    (handle ⟨none, none, none⟩ rejectingCollaborators .rejectAndDelete
        ⟨some ⟨some "Ana", some "ana@x.com", some "Ana Kitchen"⟩, some "incomplete", none,
          some "u1"⟩).1 =
        ⟨500, .failure "Invalid login: 535-5.7.8 Username and Password not accepted"⟩ ∧
      deleteUserCalls (handle ⟨none, none, none⟩ rejectingCollaborators .rejectAndDelete
        ⟨some ⟨some "Ana", some "ana@x.com", some "Ana Kitchen"⟩, some "incomplete", none,
          some "u1"⟩).2 = [] :=
  have h := C4_send_failure_is_500 ⟨none, none, none⟩ rejectingCollaborators .rejectAndDelete
    ⟨some ⟨some "Ana", some "ana@x.com", some "Ana Kitchen"⟩, some "incomplete", none, some "u1"⟩
    ⟨some "Ana", some "ana@x.com", some "Ana Kitchen"⟩
    "Invalid login: 535-5.7.8 Username and Password not accepted" rfl
    ⟨"Ana", rfl, by decide⟩ ⟨"ana@x.com", rfl, by decide⟩
    (fun _ => ⟨"incomplete", rfl, by decide⟩) rfl
  ⟨h.1, h.2.2⟩

/-- C7 (as stated) fails for an accepted request without `businessName`: the
endpoint needs only a name and an e-mail, answers 200, and the message it
sends contains no business name of the vendor, but the text `undefined` in
its place. -/
theorem C7_counterexample_no_business_name :
    (sendApprovalEmail ⟨none, none, none⟩ workingCollaborators
        ⟨some ⟨some "Ana", some "ana@x.com", none⟩, none, none, none⟩).1 =
        ⟨200, .sent "Approval email sent successfully" ⟨true, "<id-1@mouthfulfoods.com>"⟩⟩ ∧
      sendMailCalls (sendApprovalEmail ⟨none, none, none⟩ workingCollaborators
        ⟨some ⟨some "Ana", some "ana@x.com", none⟩, none, none, none⟩).2 =
        [approvalMailOptions ⟨none, none, none⟩ ⟨some "Ana", some "ana@x.com", none⟩] ∧
      containsStr "<strong>undefined</strong>"
        (approvalMailOptions ⟨none, none, none⟩ ⟨some "Ana", some "ana@x.com", none⟩).html ∧
      ¬ ∃ b, (⟨some "Ana", some "ana@x.com", none⟩ : Vendor).businessName = some b ∧
        containsStr b
          (approvalMailOptions ⟨none, none, none⟩ ⟨some "Ana", some "ana@x.com", none⟩).html := by
  refine ⟨by decide, rfl, ?_, ?_⟩
  · exact approvalHtml_contains_strong_businessName ⟨some "Ana", some "ana@x.com", none⟩
  · rintro ⟨b, hb, -⟩
    cases hb

/-- C7 (amended): for every approval request the endpoint accepts (vendor
present, name and e-mail non-empty) and every provisioned transport, exactly
one message is handed to `sendMail`; its `html` contains the vendor name and
the dashboard URL; it contains the business name, between `<strong>` tags,
when the request supplies one, and the text `undefined` between those tags
when it does not; and when the transport accepts the message the response is
status 200 with `{success:true, message:"Approval email sent successfully",
data:{success:true, messageId}}`, `messageId` being the identifier the
transport supplied, hence non-empty whenever that one is. -/
theorem C7_approval_message_and_response (env : Env) (c : Collaborators) (body : Body)
    (v : Vendor) (n : String) (t : Transport)
    (hv : body.vendor = some v) (hn : v.name = some n) (hn0 : n ≠ "")
    (he : ∃ e, v.email = some e ∧ e ≠ "") (ht : c.transporter = some t) :
    sendMailCalls (sendApprovalEmail env c body).2 = [approvalMailOptions env v] ∧
      containsStr n (approvalMailOptions env v).html ∧
      (∀ b, v.businessName = some b →
        containsStr b (approvalMailOptions env v).html ∧
        containsStr ("<strong>" ++ b ++ "</strong>") (approvalMailOptions env v).html) ∧
      (v.businessName = none →
        containsStr "<strong>undefined</strong>" (approvalMailOptions env v).html) ∧
      containsStr "https://dashboard.mouthfulfoods.com/" (approvalMailOptions env v).html ∧
      (∀ info, t (approvalMailOptions env v) = .ok info →
        (sendApprovalEmail env c body).1 =
            ⟨200, .sent "Approval email sent successfully" ⟨true, info.messageId⟩⟩ ∧
          (info.messageId ≠ "" → ∃ id, id ≠ "" ∧ (sendApprovalEmail env c body).1.body =
            .sent "Approval email sent successfully" ⟨true, id⟩)) := by
  have hvalid := validVendor_eq_some body v hv ((truthy_eq_true_iff _).2 he)
    ((truthy_eq_true_iff _).2 ⟨n, hn, hn0⟩)
  refine ⟨?_, ?_, ?_, ?_, ?_, ?_⟩
  · have htrace := sendVendorApprovalEmail_trace env t v
    unfold sendApprovalEmail
    rw [hvalid, ht]
    simp only []
    cases hres : sendVendorApprovalEmail env (some t) v with
    | mk r trace =>
      rw [hres] at htrace
      simp only [] at htrace
      subst htrace
      cases r <;> simp [caught, sendMailCalls]
  · have h := approvalHtml_contains_name v
    rw [hn] at h
    exact h
  · intro b hb
    have h := approvalHtml_contains_businessName v
    have h2 := approvalHtml_contains_strong_businessName v
    rw [hb] at h h2
    exact ⟨h, h2⟩
  · intro hb
    have h := approvalHtml_contains_strong_businessName v
    rw [hb] at h
    exact h
  · exact approvalHtml_contains_dashboard v
  · intro info hinfo
    have hs := sendVendorApprovalEmail_ok env t v info hinfo
    have hresp : (sendApprovalEmail env c body).1 =
        ⟨200, .sent "Approval email sent successfully" ⟨true, info.messageId⟩⟩ := by
      simp [sendApprovalEmail, hvalid, ht, hs, Response.json]
    refine ⟨hresp, fun hid => ⟨info.messageId, hid, ?_⟩⟩
    rw [hresp]

theorem C7_approval_message_and_response_witness :
    containsStr "Ana" (approvalMailOptions ⟨none, none, none⟩
        ⟨some "Ana", some "ana@x.com", some "Ana Kitchen"⟩).html ∧
      containsStr "Ana Kitchen" (approvalMailOptions ⟨none, none, none⟩
        ⟨some "Ana", some "ana@x.com", some "Ana Kitchen"⟩).html ∧
      (sendApprovalEmail ⟨none, none, none⟩ workingCollaborators
        ⟨some ⟨some "Ana", some "ana@x.com", some "Ana Kitchen"⟩, none, none, none⟩).1 =
        ⟨200, .sent "Approval email sent successfully" ⟨true, "<id-1@mouthfulfoods.com>"⟩⟩ :=
  have h := C7_approval_message_and_response ⟨none, none, none⟩ workingCollaborators
    ⟨some ⟨some "Ana", some "ana@x.com", some "Ana Kitchen"⟩, none, none, none⟩
    ⟨some "Ana", some "ana@x.com", some "Ana Kitchen"⟩ "Ana" acceptingTransport
    rfl rfl (by decide) ⟨"ana@x.com", rfl, by decide⟩ rfl
  ⟨h.2.1, (h.2.2.1 "Ana Kitchen" rfl).1, (h.2.2.2.2.2 ⟨"<id-1@mouthfulfoods.com>"⟩ rfl).1⟩

/-! ## Templates (C5, C6) -/

theorem sendMailCalls_rejectAndDeleteVendor (env : Env) (c : Collaborators) (body : Body) :
    sendMailCalls (rejectAndDeleteVendor env c body).2 =
      match validVendor body with
      | none => []
      | some v =>
        if truthy body.reason && c.transporter.isSome then
          [suspensionMailOptions env v body.reason false]
        else [] := by
  unfold rejectAndDeleteVendor
  cases hvalid : validVendor body with
  | none => simp [sendMailCalls]
  | some v =>
    by_cases hreason : truthy body.reason = true
    · cases htr : c.transporter with
      | none =>
        simp [hreason, sendVendorSuspensionEmail, awaitSendMail, caught, sendMailCalls]
      | some t =>
        cases hres : t (suspensionMailOptions env v body.reason false) with
        | error m =>
          simp [hreason, sendVendorSuspensionEmail, awaitSendMail, hres, caught,
            sendMailCalls]
        | ok info =>
          have hd := sendMailCalls_deleteAuthUser c body.userId
          simp only [hreason, sendVendorSuspensionEmail, awaitSendMail, hres, Option.getD_some,
            Bool.not_true, Bool.false_eq_true, if_false, Option.isSome_some, Bool.and_self,
            if_true, sendMailCalls_append, hd]
          rfl
    · simp [hreason, sendMailCalls]

/-- C5: for every vendor and every reason string,
`sendVendorSuspensionEmail(vendor, reason, true)` hands the transport one
message, whose subject contains "Suspended" and whose `html` contains the
reason, character for character. -/
theorem C5_suspension_template (env : Env) (t : Transport) (vendor : Vendor) (reason : String) :
    ∃ o, (sendVendorSuspensionEmail env (some t) vendor (some reason) (some true)).2 =
        [.sendMail o] ∧
      o = suspensionMailOptions env vendor (some reason) true ∧
      containsStr "Suspended" o.subject ∧ containsStr reason o.html := by
  refine ⟨_, sendVendorSuspensionEmail_trace env t vendor (some reason) (some true), rfl, ?_, ?_⟩
  · exact ⟨"Account ".data, " - Mouthful Foods".data, rfl⟩
  · exact suspendedHtml_contains_reason vendor (some reason)

/-- C6: for every vendor and every reason string,
`sendVendorSuspensionEmail(vendor, reason, false)` hands the transport one
message, whose subject contains "Rejected" and whose `html` contains the
reason, character for character; and every message the reject-and-delete
endpoint sends is rendered with `isActive = false`: it sends nothing, or
exactly the rejection message for the request's vendor and reason, the latter
whenever the request is valid and a transport is provisioned. -/
theorem C6_rejection_template (env : Env) (t : Transport) (vendor : Vendor) (reason : String) :
    (∃ o, (sendVendorSuspensionEmail env (some t) vendor (some reason) (some false)).2 =
        [.sendMail o] ∧
      o = suspensionMailOptions env vendor (some reason) false ∧
      containsStr "Rejected" o.subject ∧ containsStr reason o.html) ∧
    (∀ (c : Collaborators) (body : Body),
      sendMailCalls (rejectAndDeleteVendor env c body).2 = [] ∨
      ∃ v r, body.vendor = some v ∧ body.reason = some r ∧
        sendMailCalls (rejectAndDeleteVendor env c body).2 =
          [suspensionMailOptions env v (some r) false]) ∧
    (∀ (c : Collaborators) (body : Body), c.transporter = some t →
      body.vendor = some vendor → truthy vendor.name = true → truthy vendor.email = true →
      body.reason = some reason → reason ≠ "" →
      sendMailCalls (rejectAndDeleteVendor env c body).2 =
        [suspensionMailOptions env vendor (some reason) false]) := by
  refine ⟨⟨_, sendVendorSuspensionEmail_trace env t vendor (some reason) (some false), rfl,
    ⟨"Application ".data, " - Mouthful Foods".data, rfl⟩,
    rejectedHtml_contains_reason vendor (some reason)⟩, ?_, ?_⟩
  · intro c body
    rw [sendMailCalls_rejectAndDeleteVendor]
    cases hvalid : validVendor body with
    | none => exact Or.inl rfl
    | some v =>
      by_cases hcond : (truthy body.reason && c.transporter.isSome) = true
      · right
        have hreason : truthy body.reason = true := by
          cases hr : truthy body.reason <;> simp [hr] at hcond ⊢
        obtain ⟨r, hr, -⟩ := (truthy_eq_true_iff _).1 hreason
        refine ⟨v, r, ((validVendor_some_iff body v).1 hvalid).1, hr, ?_⟩
        simp only [hcond, if_true]
        rw [hr]
      · left
        simp only [hcond]
        rfl
  · intro c body ht hv hn he hr hr0
    rw [sendMailCalls_rejectAndDeleteVendor, validVendor_eq_some body vendor hv he hn]
    have hreason : truthy body.reason = true := (truthy_eq_true_iff _).2 ⟨reason, hr, hr0⟩
    simp only [hreason, ht, Option.isSome_some, Bool.and_self, if_true]
    rw [hr]

theorem C6_rejection_template_witness :
    sendMailCalls (rejectAndDeleteVendor ⟨none, none, none⟩ workingCollaborators
        ⟨some ⟨some "Ana", some "ana@x.com", some "Ana Kitchen"⟩, some "incomplete", none,
          some "u1"⟩).2 =
      [suspensionMailOptions ⟨none, none, none⟩
        ⟨some "Ana", some "ana@x.com", some "Ana Kitchen"⟩ (some "incomplete") false] :=
  (C6_rejection_template ⟨none, none, none⟩ acceptingTransport
    ⟨some "Ana", some "ana@x.com", some "Ana Kitchen"⟩ "incomplete").2.2 workingCollaborators
    ⟨some ⟨some "Ana", some "ana@x.com", some "Ana Kitchen"⟩, some "incomplete", none, some "u1"⟩
    rfl rfl (by decide) (by decide) rfl (by decide)

/-! ## Transport provisioner (C9) -/

theorem useRealCredentials_iff (env : Env) :
    useRealCredentials env = true ↔ specConfiguredMode env := by
  unfold useRealCredentials specConfiguredMode
  constructor
  · intro h
    simp only [Bool.and_eq_true, bne_iff_ne, ne_eq] at h
    obtain ⟨⟨hu, hp⟩, hne⟩ := h
    obtain ⟨u, hu1, hu2⟩ := (truthy_eq_true_iff _).1 hu
    obtain ⟨p, hp1, hp2⟩ := (truthy_eq_true_iff _).1 hp
    refine ⟨u, p, hu1, hu2, hp1, hp2, ?_⟩
    intro hpl
    exact hne (by rw [hu1, hpl])
  · rintro ⟨u, p, hu1, hu2, hp1, hp2, hne⟩
    simp only [Bool.and_eq_true, bne_iff_ne, ne_eq]
    refine ⟨⟨(truthy_eq_true_iff _).2 ⟨u, hu1, hu2⟩, (truthy_eq_true_iff _).2 ⟨p, hp1, hp2⟩⟩, ?_⟩
    rw [hu1]
    intro h
    exact hne (Option.some.inj h)

/-- C9 (as stated) fails when the test-account request fails: with no
credentials configured and `createTestAccount` rejecting, `setupTransporter`
creates no transport and leaves `transporter` undefined. -/
theorem C9_counterexample_test_account_fails :
    ¬ specConfiguredMode ⟨none, none, none⟩ ∧
      ¬ (createdTransports (setupTransporter ⟨none, none, none⟩
          (.error "getaddrinfo ENOTFOUND api.nodemailer.com"))).length = 1 ∧
      (setupTransporter ⟨none, none, none⟩
          (.error "getaddrinfo ENOTFOUND api.nodemailer.com")).transporter = none := by
  refine ⟨?_, by decide, by decide⟩
  rintro ⟨u, p, hu, -⟩
  cases hu

/-- C9 (amended): `setupTransporter` chooses configured mode exactly when both
mail credentials are present, non-empty, and the username is not the
placeholder: it then creates one transport, for the service `gmail` with the
configured username and password, verifies it, and requests no test account.
In every other case it chooses sandbox mode: it first requests a test account;
when that request succeeds it creates one transport, with host
`smtp.ethereal.email`, port 587, `secure: false`, and the user and password of
that account; when the request fails it creates no transport, `transporter`
stays undefined and the returned promise rejects with the error.  So exactly
one transport is created in configured mode and in sandbox mode with a
successful request, and a `gmail` transport is created in configured mode
only. -/
theorem C9_setupTransporter_modes (env : Env) (createTestAccount : Except String TestAccount) :
    (specConfiguredMode env → ∃ u p, env.EMAIL_USER = some u ∧ env.EMAIL_PASS = some p ∧
      setupTransporter env createTestAccount =
        { transporter := some (.service "gmail" (some u) (some p))
          calls := [.createTransport (.service "gmail" (some u) (some p)), .verify]
          rejected := none }) ∧
    (¬ specConfiguredMode env → ∀ testAccount, createTestAccount = .ok testAccount →
      setupTransporter env createTestAccount =
        { transporter :=
            some (.smtp "smtp.ethereal.email" 587 false testAccount.user testAccount.pass)
          calls := [.createTestAccount,
            .createTransport
              (.smtp "smtp.ethereal.email" 587 false testAccount.user testAccount.pass)]
          rejected := none }) ∧
    (¬ specConfiguredMode env → ∀ e, createTestAccount = .error e →
      setupTransporter env createTestAccount =
        { transporter := none, calls := [.createTestAccount], rejected := some e }) ∧
    ((∃ service user pass, TransportConfig.service service user pass ∈
        createdTransports (setupTransporter env createTestAccount)) ↔
      specConfiguredMode env) ∧
    (SetupEvent.createTestAccount ∈ (setupTransporter env createTestAccount).calls ↔
      ¬ specConfiguredMode env) ∧
    ((createdTransports (setupTransporter env createTestAccount)).length = 1 ↔
      (specConfiguredMode env ∨ ∃ testAccount, createTestAccount = .ok testAccount)) := by
  by_cases h : specConfiguredMode env
  · have hreal := (useRealCredentials_iff env).2 h
    obtain ⟨u, p, hu, hu0, hp, hp0, hne⟩ := h
    have h : specConfiguredMode env := ⟨u, p, hu, hu0, hp, hp0, hne⟩
    have hrun : setupTransporter env createTestAccount =
        { transporter := some (.service "gmail" (some u) (some p))
          calls := [.createTransport (.service "gmail" (some u) (some p)), .verify]
          rejected := none } := by
      simp [setupTransporter, hreal, hu, hp]
    refine ⟨fun _ => ⟨u, p, hu, hp, hrun⟩, fun hn => absurd h hn, fun hn => absurd h hn,
      ?_, ?_, ?_⟩
    · rw [hrun]
      exact ⟨fun _ => h, fun _ => ⟨"gmail", some u, some p, by simp [createdTransports]⟩⟩
    · rw [hrun]
      simp [h]
    · rw [hrun]
      simp [h, createdTransports]
  · have hreal : useRealCredentials env = false := by
      cases hc : useRealCredentials env with
      | false => rfl
      | true => exact absurd ((useRealCredentials_iff env).1 hc) h
    cases hcta : createTestAccount with
    | error e =>
      have hrun : setupTransporter env (.error e) =
          { transporter := none, calls := [.createTestAccount], rejected := some e } := by
        simp [setupTransporter, hreal]
      refine ⟨fun hs => absurd hs h, ?_, ?_, ?_, ?_, ?_⟩
      · intro _ testAccount hacct
        cases hacct
      · intro _ e2 he2
        cases he2
        exact hrun
      · rw [hrun]
        simp [h, createdTransports]
      · rw [hrun]
        simp [h]
      · rw [hrun]
        simp [h, createdTransports]
    | ok acct =>
      have hrun : setupTransporter env (.ok acct) =
          { transporter := some (.smtp "smtp.ethereal.email" 587 false acct.user acct.pass)
            calls := [.createTestAccount,
              .createTransport (.smtp "smtp.ethereal.email" 587 false acct.user acct.pass)]
            rejected := none } := by
        simp [setupTransporter, hreal]
      refine ⟨fun hs => absurd hs h, ?_, ?_, ?_, ?_, ?_⟩
      · intro _ testAccount hacct
        cases hacct
        exact hrun
      · intro _ e2 he2
        cases he2
      · rw [hrun]
        simp [h, createdTransports]
      · rw [hrun]
        simp [h]
      · rw [hrun]
        simp [h, createdTransports]

theorem C9_setupTransporter_modes_witness :
    setupTransporter ⟨some "", some "app-password", none⟩
        (.ok ⟨"abc@ethereal.email", "s3cret"⟩) =
      { transporter :=
          some (.smtp "smtp.ethereal.email" 587 false "abc@ethereal.email" "s3cret")
        calls := [.createTestAccount,
          .createTransport (.smtp "smtp.ethereal.email" 587 false "abc@ethereal.email" "s3cret")]
        rejected := none } ∧
      setupTransporter ⟨some "mail@mouthfulfoods.com", some "app-password", none⟩
        (.error "getaddrinfo ENOTFOUND api.nodemailer.com") =
      { transporter := some (.service "gmail" (some "mail@mouthfulfoods.com") (some "app-password"))
        calls := [.createTransport
          (.service "gmail" (some "mail@mouthfulfoods.com") (some "app-password")), .verify]
        rejected := none } :=
  ⟨(C9_setupTransporter_modes ⟨some "", some "app-password", none⟩
      (.ok ⟨"abc@ethereal.email", "s3cret"⟩)).2.1
    (by rintro ⟨u, p, hu, hu0, -⟩; exact hu0 (Option.some.inj hu).symm)
    ⟨"abc@ethereal.email", "s3cret"⟩ rfl,
   by
    obtain ⟨u, p, hu, hp, hrun⟩ :=
      (C9_setupTransporter_modes ⟨some "mail@mouthfulfoods.com", some "app-password", none⟩
        (.error "getaddrinfo ENOTFOUND api.nodemailer.com")).1
        ⟨"mail@mouthfulfoods.com", "app-password", rfl, by decide, rfl, by decide, by decide⟩
    cases hu
    cases hp
    exact hrun⟩

/-! ## Access control filter (C10) -/

theorem indexOf_ne_neg_one_iff {α : Type} [DecidableEq α] (l : List α) (x : α) :
    indexOf l x ≠ -1 ↔ x ∈ l := by
  induction l with
  | nil => simp [indexOf]
  | cons y ys ih =>
    unfold indexOf
    by_cases hy : y = x
    · simp [hy]
    · have hxy : ¬ x = y := fun h => hy h.symm
      simp only [hy, if_false, List.mem_cons, hxy, false_or]
      rw [← ih]
      by_cases hi : indexOf ys x = -1
      · simp [hi]
      · have hnonneg : ∀ (zs : List α), indexOf zs x = -1 ∨ 0 ≤ indexOf zs x := by
          intro zs
          induction zs with
          | nil => exact Or.inl rfl
          | cons z zs ihz =>
            unfold indexOf
            by_cases hz : z = x
            · simp [hz]
            · by_cases hj : indexOf zs x = -1
              · simp [hz, hj]
              · rcases ihz with h | h
                · exact absurd h hj
                · right
                  simp only [hz, if_false, hj]
                  omega
        simp only [hi, if_false, ne_eq, not_false_eq_true, iff_true]
        rcases hnonneg ys with h | h
        · exact absurd h hi
        · omega

theorem mem_allowedOrigins (env : Env) (o : Option String) :
    o ∈ allowedOrigins env ↔
      o = some "http://localhost:3000" ∨ o = some "http://localhost:3001" ∨
        (o = env.FRONTEND_PROD_URL ∧ truthy o = true) := by
  unfold allowedOrigins
  simp only [List.mem_filter, List.mem_cons, List.mem_singleton, List.not_mem_nil, or_false]
  constructor
  · rintro ⟨h | h | h, ht⟩
    · exact Or.inl h
    · exact Or.inr (Or.inl h)
    · exact Or.inr (Or.inr ⟨h, ht⟩)
  · rintro (h | h | ⟨h, ht⟩)
    · exact ⟨Or.inl h, by rw [h]; decide⟩
    · exact ⟨Or.inr (Or.inl h), by rw [h]; decide⟩
    · exact ⟨Or.inr (Or.inr h), ht⟩

/-- C10 (as stated) fails for a request whose `Origin` header is present but
empty: it is allowed although the origin is neither absent nor a member of the
allow-list. -/
theorem C10_counterexample_empty_origin :
    ¬ (corsOrigin ⟨none, none, some "https://admin.mouthfulfoods.com"⟩ (some "") = .allow ↔
      ((some "" : Option String) = none ∨
        some "" ∈ allowedOrigins ⟨none, none, some "https://admin.mouthfulfoods.com"⟩)) := by
  decide

/-- C10 (amended): the origin callback allows a request exactly when its origin
is absent, is the empty string, or is a member of the allow-list; every other
origin is rejected with the error "Not allowed by CORS".  The allow-list
depends on the environment only and consists of `http://localhost:3000`,
`http://localhost:3001` and `FRONTEND_PROD_URL` when that is set to a non-empty
value. -/
theorem C10_cors_origin (env : Env) (origin : Option String) :
    (corsOrigin env origin = .allow ↔
      origin = none ∨ origin = some "" ∨ origin ∈ allowedOrigins env) ∧
    (corsOrigin env origin = .allow ∨ corsOrigin env origin = .reject "Not allowed by CORS") ∧
    (∀ o, o ∈ allowedOrigins env ↔
      o = some "http://localhost:3000" ∨ o = some "http://localhost:3001" ∨
        (o = env.FRONTEND_PROD_URL ∧ truthy o = true)) := by
  refine ⟨?_, ?_, mem_allowedOrigins env⟩
  · unfold corsOrigin
    by_cases ht : truthy origin = true
    · have hne : ¬ (origin = none ∨ origin = some "") := by
        intro h
        have := (truthy_eq_false_iff origin).2 h
        rw [this] at ht
        exact Bool.false_ne_true ht
      by_cases hi : indexOf (allowedOrigins env) origin ≠ -1
      · have hm := (indexOf_ne_neg_one_iff _ _).1 hi
        simp [ht, hi, hm]
      · have hm : origin ∉ allowedOrigins env := fun h => hi ((indexOf_ne_neg_one_iff _ _).2 h)
        simp only [ht, Bool.not_true, Bool.false_eq_true, if_false, hi, hm, or_false]
        constructor
        · intro h
          cases h
        · rintro (h | h)
          · exact absurd (Or.inl h) hne
          · exact absurd (Or.inr h) hne
    · have hf : truthy origin = false := by
        cases h : truthy origin with
        | false => rfl
        | true => exact absurd h ht
      have := (truthy_eq_false_iff origin).1 hf
      simp only [hf, Bool.not_false, if_true, true_iff]
      rcases this with h | h
      · exact Or.inl h
      · exact Or.inr (Or.inl h)
  · unfold corsOrigin
    split
    · exact Or.inl rfl
    · split
      · exact Or.inl rfl
      · exact Or.inr rfl

end MouthfulEmail
